import Mathlib

/-!
# Subcategory management screen

A shallow embedding of `Website/frontend/src/Components/admin/SubCategory.jsx`.

The component is a function of three pieces of local state (`categoryId`,
`subName`, `editData`) and two store slices.  Its handlers are embedded as pure
functions from the form state of the render in which they were created to a
`Reaction`: the form state after the state setters have been applied and the
component has re-rendered, the dispatches and toast notifications issued (in
order), and the promise continuation that was registered, if any.  A promise
continuation is a closure over the values of the render that created it; it is
embedded as a `Pending` value holding exactly the captured variables it reads,
and `settle` runs it.

Strings are the identities: `_id`, `categoryId` and `name` are JavaScript
strings, so truthiness is non-emptiness and `===` is equality.
-/

namespace SubCategory

/-! ## Data model -/

/-- A Category of `state.categories.categories`, as far as the screen reads it. -/
structure Category where
  _id : String
  name : String
  deriving DecidableEq, Repr

/-- A Subcategory of `state.subcategories.subcategories`: a row of the table. -/
structure SubCategoryRow where
  _id : String
  name : String
  categoryId : String
  deriving DecidableEq, Repr

/-- The three `useState` cells of lines 20-22.  `editData` is `null` (here
`none`) or the row handed to `handleEdit`; a row is an object and so truthy. -/
structure Form where
  categoryId : String
  subName : String
  editData : Option SubCategoryRow
  deriving DecidableEq, Repr

/-- The thunk actions the screen creates, with their arguments. -/
inductive Action where
  | fetchCategories
  | fetchSubcategories (categoryId : String)
  | createSubCategory (name : String) (categoryId : String)
  | updateSubCategory (id : String) (name : String) (categoryId : String)
  | deleteSubCategory (id : String)
  deriving DecidableEq, Repr

/-- What the screen does to the outside: `dispatch(...)`, `toast.error(...)`,
`toast.success(...)`. -/
inductive Effect where
  | dispatch (a : Action)
  | toastError (msg : String)
  | toastSuccess (msg : String)
  deriving DecidableEq, Repr

/-- The value a rejected thunk hands to `.catch((err) => ...)`, as far as
`err.message || err` inside a template literal inspects it: the `message`
property when it is defined (a string), and the string form `String(err)`.
The value is not `null`/`undefined` (the thunks reject with an error or a
payload). -/
structure Rejection where
  message : Option String
  asString : String
  deriving DecidableEq, Repr

/-- How the promise returned by `dispatch(action).unwrap()` settles. -/
inductive Outcome where
  | fulfilled
  | rejected (err : Rejection)
  deriving DecidableEq, Repr

/-- A registered `.then(...).catch(...)` continuation, with the variables of
the creating render that its body reads: `handleSubmit` reads `editData` and
`categoryId` (lines 56, 58), `handleDelete` reads `categoryId` (line 83). -/
inductive Pending where
  | submit (categoryId : String) (editData : Option SubCategoryRow)
  | delete (categoryId : String)
  deriving DecidableEq, Repr

/-- Result of running a handler. -/
structure Reaction where
  form : Form
  effects : List Effect
  awaiting : Option Pending
  deriving DecidableEq, Repr

/-- The state of lines 20-22 at mount: `useState('')`, `useState('')`,
`useState(null)`. -/
def initialForm : Form :=
  { categoryId := "", subName := "", editData := none }

/-! ## String helpers -/

/-- ECMAScript `WhiteSpace` and `LineTerminator` code points, the ones
`String.prototype.trim` strips. -/
def isWhiteSpace (c : Char) : Bool :=
  let n := c.toNat
  n == 0x09 || n == 0x0A || n == 0x0B || n == 0x0C || n == 0x0D || n == 0x20 ||
  n == 0xA0 || n == 0x1680 || (0x2000 ≤ n && n ≤ 0x200A) || n == 0x2028 ||
  n == 0x2029 || n == 0x202F || n == 0x205F || n == 0x3000 || n == 0xFEFF

/-- The method `subName.trim()`: strips leading and trailing white space. -/
def jsTrim (s : String) : String :=
  String.mk ((s.data.dropWhile isWhiteSpace).reverse.dropWhile isWhiteSpace).reverse

/-- The text built by the template literal of lines 61 and 85: the characters
`Error: ` followed by `err.message || err`; an undefined or empty `message` is
falsy and gives the string form of `err`. -/
def errorText (err : Rejection) : String :=
  "Error: " ++
    (match err.message with
     | some m => if m ≠ "" then m else err.asString
     | none => err.asString)

/-! ## Effects of rendering -/

/-- The mount effect of lines 25-27. -/
def mountEffect : List Effect :=
  [Effect.dispatch Action.fetchCategories]

/-- Body of the effect of lines 30-34, run with the rendered `categoryId`. -/
def selectionEffect (categoryId : String) : List Effect :=
  if categoryId ≠ "" then [Effect.dispatch (Action.fetchSubcategories categoryId)] else []

/-- A re-render after state setters moved the form from `prev` to `next`: the
effect of lines 30-34 has the dependency array `[categoryId, dispatch]`
(`dispatch` is stable), so its body runs only when `categoryId` changed. -/
def rerender (prev next : Form) : Reaction :=
  { form := next
    effects := if next.categoryId ≠ prev.categoryId then selectionEffect next.categoryId else []
    awaiting := none }

/-! ## Handlers -/

/-- The `onChange` of the select, line 126: `setCategoryId(e.target.value)`. -/
def selectCategory (f : Form) (value : String) : Reaction :=
  rerender f { f with categoryId := value }

/-- The `onChange` of the input, line 143: `setSubName(e.target.value)`. -/
def typeName (f : Form) (value : String) : Reaction :=
  rerender f { f with subName := value }

/-- The function `resetForm`, lines 65-69. -/
def resetForm (f : Form) : Reaction :=
  rerender f { subName := "", categoryId := "", editData := none }

/-- The function `handleEdit`, lines 71-75. -/
def handleEdit (f : Form) (sub : SubCategoryRow) : Reaction :=
  rerender f { editData := some sub, subName := sub.name, categoryId := sub.categoryId }

/-- The function `handleSubmit`, lines 36-63, up to the registration of the
continuation on the dispatched promise. -/
def handleSubmit (f : Form) : Reaction :=
  if f.categoryId = "" then
    { form := f, effects := [Effect.toastError "Please select a Category!"], awaiting := none }
  else if jsTrim f.subName = "" then
    { form := f, effects := [Effect.toastError "Please enter Subcategory Name!"], awaiting := none }
  else
    let action :=
      match f.editData with
      | some ed => Action.updateSubCategory ed._id f.subName f.categoryId
      | none => Action.createSubCategory f.subName f.categoryId
    { form := f
      effects := [Effect.dispatch action]
      awaiting := some (Pending.submit f.categoryId f.editData) }

/-- The function `handleDelete`, lines 77-87, up to the registration of the
continuation; `confirmed` is what `window.confirm` returned. -/
def handleDelete (f : Form) (id : String) (confirmed : Bool) : Reaction :=
  if confirmed then
    { form := f
      effects := [Effect.dispatch (Action.deleteSubCategory id)]
      awaiting := some (Pending.delete f.categoryId) }
  else
    { form := f, effects := [], awaiting := none }

/-- The delete button of a row, lines 108-113: `handleDelete(row._id)`. -/
def deleteClick (f : Form) (row : SubCategoryRow) (confirmed : Bool) : Reaction :=
  handleDelete f row._id confirmed

/-- The continuations of lines 55-62 and 81-85, run when the promise settles
while the form is `cur`.  The captured `categoryId`/`editData` are those of the
render that created the handler. -/
def settle (p : Pending) (o : Outcome) (cur : Form) : Reaction :=
  match p, o with
  | Pending.submit categoryId editData, Outcome.fulfilled =>
    let r := resetForm cur
    { form := r.form
      effects :=
        [Effect.toastSuccess (if editData.isSome then "Subcategory Updated!" else "Subcategory Added!")]
          ++ r.effects ++ [Effect.dispatch (Action.fetchSubcategories categoryId)]
      awaiting := none }
  | Pending.submit _ _, Outcome.rejected err =>
    { form := cur, effects := [Effect.toastError (errorText err)], awaiting := none }
  | Pending.delete categoryId, Outcome.fulfilled =>
    { form := cur
      effects := [Effect.toastSuccess "Subcategory Deleted!",
                  Effect.dispatch (Action.fetchSubcategories categoryId)]
      awaiting := none }
  | Pending.delete _, Outcome.rejected err =>
    { form := cur, effects := [Effect.toastError (errorText err)], awaiting := none }

/-! ## Rendering -/

/-- The `selector` of the Parent Category column, lines 93-96. -/
def parentCategory (categories : List Category) (row : SubCategoryRow) : String :=
  match categories.find? (fun c => c._id == row.categoryId) with
  | some cat => cat.name
  | none => "Unknown"

/-- The label of the submit button, line 160. -/
def submitLabel (f : Form) : String :=
  if f.editData.isSome then "Update" else "Submit"

/-! ## The screen as a transition system -/

/-- The screen between events: the form, everything dispatched or notified so
far, and the promises still unsettled. -/
structure Screen where
  form : Form
  log : List Effect
  pending : List Pending
  deriving DecidableEq, Repr

/-- What can happen to the screen. -/
inductive Event where
  | selectCategory (value : String)
  | typeName (value : String)
  | submit
  | edit (row : SubCategoryRow)
  | cancel
  | delete (row : SubCategoryRow) (confirmed : Bool)
  | settle (i : Nat) (outcome : Outcome)
  deriving DecidableEq, Repr

/-- The screen right after mount: both effects have run, the second one with
the initial, empty `categoryId`. -/
def mounted : Screen :=
  { form := initialForm
    log := mountEffect ++ selectionEffect initialForm.categoryId
    pending := [] }

/-- Records a handler's reaction in the screen. -/
def Screen.absorb (s : Screen) (r : Reaction) : Screen :=
  { form := r.form, log := s.log ++ r.effects, pending := s.pending ++ r.awaiting.toList }

/-- One event. Settling a promise that does not exist does nothing. -/
def step (s : Screen) : Event → Screen
  | Event.selectCategory v => s.absorb (selectCategory s.form v)
  | Event.typeName v => s.absorb (typeName s.form v)
  | Event.submit => s.absorb (handleSubmit s.form)
  | Event.edit row => s.absorb (handleEdit s.form row)
  | Event.cancel => s.absorb (resetForm s.form)
  | Event.delete row confirmed => s.absorb (deleteClick s.form row confirmed)
  | Event.settle i o =>
    match s.pending.get? i with
    | none => s
    | some p =>
      let r := settle p o s.form
      { form := r.form, log := s.log ++ r.effects, pending := s.pending.eraseIdx i }

/-- A sequence of events. -/
def run (s : Screen) (evs : List Event) : Screen :=
  evs.foldl step s

/-- Whether an action is one of the two mutations a submit can dispatch. -/
def Action.isSubmitMutation : Action → Bool
  | Action.createSubCategory _ _ => true
  | Action.updateSubCategory _ _ _ => true
  | _ => false

/-- The `categoryId` arguments of the `fetchSubcategories` dispatches of a log. -/
def fetchKeys : List Effect → List String
  | [] => []
  | Effect.dispatch (Action.fetchSubcategories k) :: rest => k :: fetchKeys rest
  | _ :: rest => fetchKeys rest

/-- Whether an event is a delete click that the operator confirmed. -/
def Event.isConfirmedDelete : Event → Bool
  | Event.delete _ true => true
  | _ => false

/-- What holds of the screen as long as no delete was confirmed: every
`fetchSubcategories` so far had a non-empty key, and every unsettled promise is
a submit that captured a non-empty `categoryId`. -/
def GuardedFetches (s : Screen) : Prop :=
  (∀ k ∈ fetchKeys s.log, k ≠ "") ∧
  (∀ p ∈ s.pending, ∃ c e, p = Pending.submit c e ∧ c ≠ "")

/-! ## Auxiliary facts -/

theorem dropWhile_eq_nil_iff_all (p : Char → Bool) (l : List Char) :
    l.dropWhile p = [] ↔ ∀ c ∈ l, p c = true := by
  induction l with
  | nil => simp
  | cons a t ih =>
    by_cases h : p a = true
    · simp [List.dropWhile, h, ih]
    · simp [List.dropWhile, h]

/-- The trimmed string is empty exactly when every character is white space. -/
theorem jsTrim_eq_empty_iff (s : String) :
    jsTrim s = "" ↔ ∀ c ∈ s.data, isWhiteSpace c = true := by
  have h0 : jsTrim s = "" ↔ (s.data.dropWhile isWhiteSpace).reverse.dropWhile isWhiteSpace = [] := by
    unfold jsTrim
    constructor
    · intro h
      have h2 := congrArg String.data h
      simpa using h2
    · intro h
      rw [h]
      rfl
  rw [h0, dropWhile_eq_nil_iff_all]
  constructor
  · intro h
    by_contra hne
    have hd : s.data.dropWhile isWhiteSpace ≠ [] := by
      intro hnil
      exact hne ((dropWhile_eq_nil_iff_all _ _).1 hnil)
    obtain ⟨a, t, hat⟩ := List.exists_cons_of_ne_nil hd
    have hhead : isWhiteSpace a = false := by
      have := List.head_dropWhile_not isWhiteSpace s.data hd
      simpa [hat] using this
    have : isWhiteSpace a = true := h a (by simp [hat])
    simp [hhead] at this
  · intro h c hc
    have hnil : s.data.dropWhile isWhiteSpace = [] := (dropWhile_eq_nil_iff_all _ _).2 h
    simp [hnil] at hc

/-- The function `resetForm` never dispatches: it sets `categoryId` to the empty
string, for which the selection effect is guarded. -/
theorem resetForm_eq (f : Form) :
    resetForm f = { form := initialForm, effects := [], awaiting := none } := by
  simp [resetForm, rerender, initialForm, selectionEffect]

/-! ## Submit: validation and dispatch -/

/-- C1: `handleSubmit` validation.  With an empty `categoryId` the submit gives
exactly one error notification, "Please select a Category!", whatever the name
is; with a category and a name that is empty after trimming it gives exactly
one error notification, "Please enter Subcategory Name!"; in both cases
nothing is dispatched, no continuation is registered and the form is
unchanged.  A create or update is dispatched if and only if `categoryId` is
non-empty and the trimmed name is non-empty. -/
theorem handleSubmit_validation (f : Form) :
    (f.categoryId = "" →
      handleSubmit f =
        { form := f, effects := [Effect.toastError "Please select a Category!"],
          awaiting := none }) ∧
    (f.categoryId ≠ "" → jsTrim f.subName = "" →
      handleSubmit f =
        { form := f, effects := [Effect.toastError "Please enter Subcategory Name!"],
          awaiting := none }) ∧
    ((∃ a, Effect.dispatch a ∈ (handleSubmit f).effects ∧ a.isSubmitMutation = true) ↔
      (f.categoryId ≠ "" ∧ jsTrim f.subName ≠ "")) := by
  refine ⟨?_, ?_, ?_⟩
  · intro h
    simp [handleSubmit, h]
  · intro h1 h2
    simp [handleSubmit, h1, h2]
  · by_cases h1 : f.categoryId = ""
    · simp [handleSubmit, h1]
    · by_cases h2 : jsTrim f.subName = ""
      · simp [handleSubmit, h1, h2]
      · cases he : f.editData <;> simp [handleSubmit, h1, h2, he, Action.isSubmitMutation]

theorem handleSubmit_validation_witness :
    handleSubmit { categoryId := "", subName := "  ", editData := none } =
        { form := { categoryId := "", subName := "  ", editData := none },
          effects := [Effect.toastError "Please select a Category!"], awaiting := none } ∧
    handleSubmit { categoryId := "c1", subName := " \t\n", editData := none } =
        { form := { categoryId := "c1", subName := " \t\n", editData := none },
          effects := [Effect.toastError "Please enter Subcategory Name!"], awaiting := none } ∧
    (∃ a, Effect.dispatch a ∈
        (handleSubmit { categoryId := "c1", subName := " Shoes ", editData := none }).effects ∧
      a.isSubmitMutation = true) :=
  ⟨(handleSubmit_validation _).1 rfl,
   (handleSubmit_validation _).2.1 (by decide) (by decide),
   (handleSubmit_validation _).2.2.2 ⟨by decide, by decide⟩⟩

/-- C2: a form that passes validation makes `handleSubmit` dispatch exactly one
action, chosen by `editData` alone: `createSubCategory` with the form's
`subName` and `categoryId` when `editData` is unset, `updateSubCategory` keyed
by the `_id` of `editData` with the form's `subName` and `categoryId` when it
is set; the `categoryId` of the record in `editData` plays no part. -/
theorem handleSubmit_dispatch (f : Form) (hc : f.categoryId ≠ "")
    (hn : jsTrim f.subName ≠ "") :
    (f.editData = none →
      (handleSubmit f).effects =
        [Effect.dispatch (Action.createSubCategory f.subName f.categoryId)]) ∧
    (∀ x : SubCategoryRow, f.editData = some x →
      (handleSubmit f).effects =
        [Effect.dispatch (Action.updateSubCategory x._id f.subName f.categoryId)]) := by
  constructor
  · intro he
    simp [handleSubmit, hc, hn, he]
  · intro x he
    simp [handleSubmit, hc, hn, he]

theorem handleSubmit_dispatch_witness :
    (handleSubmit { categoryId := "c2", subName := "Boots", editData := none }).effects =
        [Effect.dispatch (Action.createSubCategory "Boots" "c2")] ∧
    (handleSubmit { categoryId := "c2", subName := "Boots",
                    editData := some { _id := "s7", name := "Shoes", categoryId := "c1" } }).effects =
        [Effect.dispatch (Action.updateSubCategory "s7" "Boots" "c2")] :=
  ⟨(handleSubmit_dispatch { categoryId := "c2", subName := "Boots", editData := none }
      (by decide) (by decide)).1 rfl,
   (handleSubmit_dispatch
      { categoryId := "c2", subName := "Boots",
        editData := some { _id := "s7", name := "Shoes", categoryId := "c1" } }
      (by decide) (by decide)).2 _ rfl⟩

/-! ## Re-fetch after a mutation -/

/-- C3: after a successful create, update or delete exactly one
`fetchSubcategories` is dispatched.  Here `f` is the form when the handler was
triggered and `cur` the form when its promise is fulfilled.  For a submit that
passed validation the continuation notifies success, resets the form to the
initial state, and dispatches one `fetchSubcategories` keyed by the
`categoryId` of `f`; the reset itself dispatches nothing.  For a confirmed
delete the continuation notifies success and dispatches one
`fetchSubcategories` keyed by the `categoryId` of `f`, leaving the form alone. -/
theorem refetch_after_success (f cur : Form) :
    (f.categoryId ≠ "" → jsTrim f.subName ≠ "" →
      (handleSubmit f).awaiting = some (Pending.submit f.categoryId f.editData) ∧
      (resetForm cur).effects = [] ∧
      settle (Pending.submit f.categoryId f.editData) Outcome.fulfilled cur =
        { form := initialForm
          effects :=
            [Effect.toastSuccess
               (if f.editData.isSome then "Subcategory Updated!" else "Subcategory Added!"),
             Effect.dispatch (Action.fetchSubcategories f.categoryId)]
          awaiting := none }) ∧
    (∀ id : String,
      (handleDelete f id true).awaiting = some (Pending.delete f.categoryId) ∧
      settle (Pending.delete f.categoryId) Outcome.fulfilled cur =
        { form := cur
          effects :=
            [Effect.toastSuccess "Subcategory Deleted!",
             Effect.dispatch (Action.fetchSubcategories f.categoryId)]
          awaiting := none }) := by
  constructor
  · intro hc hn
    refine ⟨?_, ?_, ?_⟩
    · simp [handleSubmit, hc, hn]
    · simp [resetForm_eq]
    · simp [settle, resetForm_eq]
  · intro id
    simp [handleDelete, settle]

theorem refetch_after_success_witness :
    (settle (Pending.submit "c1" none) Outcome.fulfilled
        { categoryId := "c2", subName := "Hats", editData := none }).effects =
      [Effect.toastSuccess "Subcategory Added!",
       Effect.dispatch (Action.fetchSubcategories "c1")] :=
  congrArg Reaction.effects
    ((refetch_after_success { categoryId := "c1", subName := "Shoes", editData := none }
        { categoryId := "c2", subName := "Hats", editData := none }).1
      (by decide) (by decide)).2.2

/-! ## The Parent Category column -/

/-- C4: the Parent Category cell of a row is "Unknown" when no category of the
loaded list (the empty list included) has the row's `categoryId` as its `_id`;
otherwise it is the name of the first category, in list order, whose `_id`
equals the row's `categoryId`. -/
theorem parentCategory_resolves (categories : List Category) (row : SubCategoryRow) :
    ((∀ c ∈ categories, c._id ≠ row.categoryId) →
      parentCategory categories row = "Unknown") ∧
    (∀ (pre : List Category) (c : Category) (post : List Category),
      categories = pre ++ c :: post → c._id = row.categoryId →
      (∀ x ∈ pre, x._id ≠ row.categoryId) →
      parentCategory categories row = c.name) := by
  constructor
  · intro h
    have hnone : categories.find? (fun c => c._id == row.categoryId) = none := by
      rw [List.find?_eq_none]
      intro x hx
      simpa using h x hx
    simp [parentCategory, hnone]
  · intro pre c post hcat hc hpre
    have hnone : pre.find? (fun c => c._id == row.categoryId) = none := by
      rw [List.find?_eq_none]
      intro x hx
      simpa using hpre x hx
    simp [parentCategory, hcat, List.find?_append, hnone, hc]

theorem parentCategory_resolves_witness :
    parentCategory [] { _id := "s1", name := "Shoes", categoryId := "c9" } = "Unknown" ∧
    parentCategory
        [{ _id := "c1", name := "Men" }, { _id := "c2", name := "Women" },
         { _id := "c2", name := "Ladies" }]
        { _id := "s1", name := "Shoes", categoryId := "c2" } = "Women" :=
  ⟨(parentCategory_resolves [] { _id := "s1", name := "Shoes", categoryId := "c9" }).1
      (by simp),
   (parentCategory_resolves
      [{ _id := "c1", name := "Men" }, { _id := "c2", name := "Women" },
       { _id := "c2", name := "Ladies" }]
      { _id := "s1", name := "Shoes", categoryId := "c2" }).2
      [{ _id := "c1", name := "Men" }] { _id := "c2", name := "Women" }
      [{ _id := "c2", name := "Ladies" }] rfl rfl (by decide)⟩

/-! ## Failure of a submit -/

/-- C5: when the action dispatched by a valid submit is rejected with `err`,
the continuation gives exactly one error notification and nothing else: no
success notification, no `fetchSubcategories`, no change of the form (`cur` is
the form when the promise settles; `handleSubmit` itself left it as it was).
The text is `Error: ` followed by `err.message` when that is a non-empty
string, and by the string form of `err` when `message` is undefined or
empty. -/
theorem submit_failure (f cur : Form) (err : Rejection) (hc : f.categoryId ≠ "")
    (hn : jsTrim f.subName ≠ "") :
    (handleSubmit f).form = f ∧
    (handleSubmit f).awaiting = some (Pending.submit f.categoryId f.editData) ∧
    settle (Pending.submit f.categoryId f.editData) (Outcome.rejected err) cur =
      { form := cur, effects := [Effect.toastError (errorText err)], awaiting := none } ∧
    (∀ m : String, err.message = some m → m ≠ "" → errorText err = "Error: " ++ m) ∧
    (err.message = none ∨ err.message = some "" →
      errorText err = "Error: " ++ err.asString) := by
  refine ⟨?_, ?_, ?_, ?_, ?_⟩
  · simp [handleSubmit, hc, hn]
  · simp [handleSubmit, hc, hn]
  · simp [settle]
  · intro m hm hne
    simp [errorText, hm, hne]
  · intro h
    rcases h with h | h <;> simp [errorText, h]

theorem submit_failure_witness :
    settle (Pending.submit "c1" none)
        (Outcome.rejected { message := some "Subcategory already exists", asString := "[object Object]" })
        { categoryId := "c1", subName := "Shoes", editData := none } =
      { form := { categoryId := "c1", subName := "Shoes", editData := none }
        effects := [Effect.toastError "Error: Subcategory already exists"]
        awaiting := none } :=
  (submit_failure { categoryId := "c1", subName := "Shoes", editData := none }
      { categoryId := "c1", subName := "Shoes", editData := none }
      { message := some "Subcategory already exists", asString := "[object Object]" }
      (by decide) (by decide)).2.2.1

/-! ## Delete, edit, cancel -/

/-- C6: delete gating.  When the confirmation is declined the delete button of
a row dispatches nothing, notifies nothing, registers nothing and leaves the
whole screen as it was; when it is confirmed, exactly one `deleteSubCategory`
is dispatched, keyed by the `_id` of that row. -/
theorem delete_gating (s : Screen) (row : SubCategoryRow) :
    deleteClick s.form row false = { form := s.form, effects := [], awaiting := none } ∧
    step s (Event.delete row false) = s ∧
    deleteClick s.form row true =
      { form := s.form
        effects := [Effect.dispatch (Action.deleteSubCategory row._id)]
        awaiting := some (Pending.delete s.form.categoryId) } := by
  refine ⟨?_, ?_, ?_⟩
  · simp [deleteClick, handleDelete]
  · simp [step, Screen.absorb, deleteClick, handleDelete]
  · simp [deleteClick, handleDelete]

/-- C7: after `handleEdit(row)` the form holds the row's `name` as `subName`,
the row's `categoryId` as `categoryId` and the row as `editData`, and the
submit button reads "Update"; for every form the label is "Update" exactly
when `editData` is set and "Submit" exactly when it is not. -/
theorem handleEdit_populates (f : Form) (row : SubCategoryRow) :
    (handleEdit f row).form =
      { categoryId := row.categoryId, subName := row.name, editData := some row } ∧
    submitLabel (handleEdit f row).form = "Update" ∧
    (∀ g : Form, (submitLabel g = "Update" ↔ g.editData.isSome = true) ∧
      (submitLabel g = "Submit" ↔ g.editData = none)) := by
  refine ⟨?_, ?_, ?_⟩
  · simp [handleEdit, rerender]
  · simp [handleEdit, rerender, submitLabel]
  · intro g
    cases hg : g.editData <;> simp [submitLabel, hg]

/-- C8: `resetForm` takes every form to the initial create-mode state (empty
`categoryId`, empty `subName`, `editData` unset), dispatching nothing and
notifying nothing; so Edit followed by Cancel gives the initial state, and
cancelling twice is the same as cancelling once. -/
theorem resetForm_clears (f : Form) (row : SubCategoryRow) :
    resetForm f =
      { form := { categoryId := "", subName := "", editData := none }
        effects := [], awaiting := none } ∧
    resetForm (handleEdit f row).form =
      { form := initialForm, effects := [], awaiting := none } ∧
    resetForm (resetForm f).form = resetForm f := by
  refine ⟨?_, ?_, ?_⟩
  · simp [resetForm_eq, initialForm]
  · simp [resetForm_eq]
  · simp [resetForm_eq]

/-! ## Edit and the selection effect -/

/-- C9, as stated, fails: Edit on a row whose `categoryId` is the one already
selected leaves the dependency of the selection effect unchanged, so nothing is
dispatched; and Edit on a row with an empty `categoryId` is stopped by the
guard of the effect. -/
theorem handleEdit_no_fetch_counterexample :
    (handleEdit { categoryId := "c1", subName := "", editData := none }
        { _id := "s1", name := "Shoes", categoryId := "c1" }).effects = [] ∧
    (handleEdit { categoryId := "c1", subName := "", editData := none }
        { _id := "s2", name := "Orphan", categoryId := "" }).effects = [] ∧
    ¬ (∀ (f : Form) (row : SubCategoryRow),
        Effect.dispatch (Action.fetchSubcategories row.categoryId) ∈
          (handleEdit f row).effects) := by
  refine ⟨by decide, by decide, ?_⟩
  intro h
  have h1 := h { categoryId := "c1", subName := "", editData := none }
    { _id := "s1", name := "Shoes", categoryId := "c1" }
  revert h1
  decide

/-- C9, amended: `handleEdit(row)` dispatches exactly one `fetchSubcategories`,
keyed by the row's `categoryId`, when that `categoryId` is non-empty and
differs from the one selected before; it dispatches nothing when the row's
`categoryId` is the one already selected or is empty. -/
theorem handleEdit_fetch (f : Form) (row : SubCategoryRow) :
    (row.categoryId ≠ f.categoryId → row.categoryId ≠ "" →
      (handleEdit f row).effects =
        [Effect.dispatch (Action.fetchSubcategories row.categoryId)]) ∧
    (row.categoryId = f.categoryId ∨ row.categoryId = "" →
      (handleEdit f row).effects = []) := by
  constructor
  · intro h1 h2
    simp [handleEdit, rerender, selectionEffect, h1, h2]
  · intro h
    rcases h with h | h
    · simp [handleEdit, rerender, h]
    · simp [handleEdit, rerender, selectionEffect, h]

theorem handleEdit_fetch_witness :
    (handleEdit initialForm { _id := "s1", name := "Shoes", categoryId := "c1" }).effects =
        [Effect.dispatch (Action.fetchSubcategories "c1")] ∧
    (handleEdit { categoryId := "c1", subName := "Hats", editData := none }
        { _id := "s1", name := "Shoes", categoryId := "c1" }).effects = [] :=
  ⟨(handleEdit_fetch initialForm { _id := "s1", name := "Shoes", categoryId := "c1" }).1
      (by decide) (by decide),
   (handleEdit_fetch { categoryId := "c1", subName := "Hats", editData := none }
      { _id := "s1", name := "Shoes", categoryId := "c1" }).2 (Or.inl rfl)⟩

/-! ## Keys of the fetches -/

theorem fetchKeys_append (a b : List Effect) :
    fetchKeys (a ++ b) = fetchKeys a ++ fetchKeys b := by
  induction a with
  | nil => simp [fetchKeys]
  | cons x t ih =>
    cases x with
    | dispatch act => cases act <;> simp [fetchKeys, ih]
    | toastError m => simp [fetchKeys, ih]
    | toastSuccess m => simp [fetchKeys, ih]

theorem fetchKeys_selectionEffect (c : String) :
    ∀ k ∈ fetchKeys (selectionEffect c), k ≠ "" := by
  intro k hk
  by_cases h : c = ""
  · simp [selectionEffect, h, fetchKeys] at hk
  · simp [selectionEffect, h, fetchKeys] at hk
    rw [hk]
    exact h

theorem fetchKeys_rerender (prev next : Form) :
    ∀ k ∈ fetchKeys (rerender prev next).effects, k ≠ "" := by
  intro k hk
  by_cases h : next.categoryId = prev.categoryId
  · simp [rerender, h, fetchKeys] at hk
  · simp only [rerender, ne_eq, h, not_false_eq_true, if_true] at hk
    exact fetchKeys_selectionEffect _ k hk

theorem guardedFetches_mounted : GuardedFetches mounted := by
  constructor
  · intro k hk
    simp [mounted, mountEffect, selectionEffect, initialForm, fetchKeys] at hk
  · intro p hp
    simp [mounted] at hp

theorem guardedFetches_absorb_rerender (s : Screen) (next : Form) (h : GuardedFetches s) :
    GuardedFetches (s.absorb (rerender s.form next)) := by
  obtain ⟨h1, h2⟩ := h
  constructor
  · intro k hk
    simp only [Screen.absorb, fetchKeys_append, List.mem_append] at hk
    rcases hk with hk | hk
    · exact h1 k hk
    · exact fetchKeys_rerender _ _ k hk
  · intro p hp
    simp only [Screen.absorb, rerender, Option.toList, List.append_nil] at hp
    exact h2 p hp

/-- Every event other than a confirmed delete keeps the fetch keys non-empty. -/
theorem guardedFetches_step (s : Screen) (e : Event) (he : e.isConfirmedDelete = false)
    (h : GuardedFetches s) : GuardedFetches (step s e) := by
  cases e with
  | selectCategory v => exact guardedFetches_absorb_rerender s _ h
  | typeName v => exact guardedFetches_absorb_rerender s _ h
  | edit row => exact guardedFetches_absorb_rerender s _ h
  | cancel => exact guardedFetches_absorb_rerender s _ h
  | submit =>
    obtain ⟨h1, h2⟩ := h
    simp only [step]
    by_cases hc : s.form.categoryId = ""
    · constructor
      · intro k hk
        simp [Screen.absorb, handleSubmit, hc, fetchKeys_append, fetchKeys] at hk
        exact h1 k hk
      · intro p hp
        simp [Screen.absorb, handleSubmit, hc] at hp
        exact h2 p hp
    · by_cases hn : jsTrim s.form.subName = ""
      · constructor
        · intro k hk
          simp [Screen.absorb, handleSubmit, hc, hn, fetchKeys_append, fetchKeys] at hk
          exact h1 k hk
        · intro p hp
          simp [Screen.absorb, handleSubmit, hc, hn] at hp
          exact h2 p hp
      · constructor
        · intro k hk
          cases hed : s.form.editData <;>
            simp [Screen.absorb, handleSubmit, hc, hn, hed, fetchKeys_append, fetchKeys] at hk <;>
            exact h1 k hk
        · intro p hp
          simp [Screen.absorb, handleSubmit, hc, hn] at hp
          rcases hp with hp | hp
          · exact h2 p hp
          · exact ⟨_, _, hp, hc⟩
  | delete row confirmed =>
    cases confirmed with
    | true => simp [Event.isConfirmedDelete] at he
    | false =>
      have hs : step s (Event.delete row false) = s := by
        simp [step, Screen.absorb, deleteClick, handleDelete]
      rw [hs]
      exact h
  | settle i o =>
    obtain ⟨h1, h2⟩ := h
    simp only [step]
    cases hp : s.pending.get? i with
    | none => exact ⟨h1, h2⟩
    | some p =>
      obtain ⟨c, ed, hpe, hc⟩ := h2 p (List.get?_mem hp)
      subst hpe
      constructor
      · intro k hk
        cases o with
        | fulfilled =>
          simp [settle, resetForm_eq, fetchKeys_append, fetchKeys] at hk
          rcases hk with hk | hk
          · exact h1 k hk
          · rw [hk]
            exact hc
        | rejected err =>
          simp [settle, fetchKeys_append, fetchKeys] at hk
          exact h1 k hk
      · intro q hq
        exact h2 q (List.mem_of_mem_eraseIdx hq)

/-- Along every sequence of events without a confirmed delete, starting from
the mounted screen, every `fetchSubcategories` carries a non-empty key. -/
theorem fetchKeys_nonempty_without_delete (evs : List Event)
    (h : ∀ e ∈ evs, e.isConfirmedDelete = false) :
    ∀ k ∈ fetchKeys (run mounted evs).log, k ≠ "" := by
  have gen : ∀ (l : List Event) (s : Screen), GuardedFetches s →
      (∀ e ∈ l, e.isConfirmedDelete = false) → GuardedFetches (run s l) := by
    intro l
    induction l with
    | nil => intro s hs _; exact hs
    | cons e t ih =>
      intro s hs hl
      have he : e.isConfirmedDelete = false := hl e (by simp)
      have ht : ∀ x ∈ t, x.isConfirmedDelete = false := fun x hx => hl x (by simp [hx])
      exact ih (step s e) (guardedFetches_step s e he hs) ht
  exact (gen evs mounted guardedFetches_mounted h).1

/-- C10 fails on the code: after a successful create the form is reset to an
empty `categoryId` while the table still lists rows; a confirmed delete of one
of them then refreshes with `fetchSubcategories('')`. -/
theorem delete_refresh_empty_key :
    fetchKeys
      (run mounted
        [Event.selectCategory "c1", Event.typeName "Shoes", Event.submit,
         Event.settle 0 Outcome.fulfilled,
         Event.delete { _id := "s1", name := "Shoes", categoryId := "c1" } true,
         Event.settle 0 Outcome.fulfilled]).log = ["c1", "c1", ""] := by
  decide

end SubCategory
